import Mathlib

/-!
Verification of the `beautiful_output` Ansible callback plugin
(`callback_plugins/beautiful_output.py`).

The development is a shallow embedding of the plugin. Python dictionaries
are modelled as association lists, the small set of value shapes that the
plugin inspects is modelled by the inductive `PyVal`, mutable renderer
attributes become the explicit record `RState`, and every notification
handler becomes a pure function from the current state (plus the incoming
event data) to the next state together with the list of `display` calls it
performs. External collaborators that the plugin merely calls into — the
`yaml`/`json` libraries, `textwrap.fill`, the templating engine used to
evaluate `when` clauses, and the `CallbackBase` helpers that are not part
of this repository — are passed in as the explicit capability record
`Externals`, mirroring how the module treats them as black boxes.

`ansible.utils.color.stringc` wraps text in ANSI escape sequences which the
log sink strips again (see `ansi_escape` in the source); the embedding
therefore tracks the visible characters of every emitted string and models
`stringc` as the identity on that text.
-/

/-- The value shapes of result-dictionary entries that the plugin inspects:
Python `None`, booleans, integers and strings. `truthy` mirrors Python
truthiness for these shapes. -/
inductive PyVal where
  | none
  | bool (b : Bool)
  | int (n : Int)
  | str (s : String)
  deriving DecidableEq, Repr

/-- Python truthiness of a `PyVal`. -/
def PyVal.truthy : PyVal → Bool
  | PyVal.none => false
  | PyVal.bool b => b
  | PyVal.int n => n != 0
  | PyVal.str s => s != ""

/-- Python `str()` of a `PyVal`, as used by f-string interpolation. -/
def PyVal.toStr : PyVal → String
  | PyVal.none => "None"
  | PyVal.bool true => "True"
  | PyVal.bool false => "False"
  | PyVal.int n => toString n
  | PyVal.str s => s

/-- Python `int()` applied to a `PyVal`. A non-numeric string raises in
Python; the plugin only ever converts the `verbosity` argument of a debug
task, which is numeric, so the failure case is defaulted to `0`. -/
def PyVal.pyInt : PyVal → Int
  | PyVal.none => 0
  | PyVal.bool b => if b then 1 else 0
  | PyVal.int n => n
  | PyVal.str s => (s.toInt?).getD 0

/-- One call of the `display` helper (source lines 267-294). Every such
call writes `msg` to the interactive screen with `color` and writes the
escape-stripped text to the append-only log, so a single `Out` value
covers both sinks. -/
structure Out where
  msg : String
  color : Option String := Option.none
  stderr : Bool := false
  newline : Bool := true
  deriving DecidableEq, Repr

/-- Models `ansible.utils.color.stringc`: the ANSI wrapper is identity on
the visible characters (the log sink strips the escapes again). -/
def stringc (text : String) (color : String) : String :=
  text

/-- Width of the terminal captured at module import
(`os.get_terminal_size().columns`); an environment constant, fixed at 80
columns for this development. -/
def TERMINAL_WIDTH : Nat := 80

/-- The divider character (source line 65). -/
def DIVIDER : String := "─"

/-- The `_symbol` dictionary (source lines 71-83). -/
def symbolDict : List (String × String) :=
  [("success", "🗹"), ("warning", "⚠"), ("failure", "🗷"), ("dead", "✝"),
   ("empty", "⬚"), ("playbook", "📖"), ("retry", "↻"), ("loop", "∑"),
   ("arrow_right", "➞"), ("skip", "⬚"), ("flag", "🏷")]

/-- The `symbol` helper (source lines 146-156), uncolored form; the
colored form is `stringc` of this, which is identity on visible text. -/
def symbolStr (key : String) : String :=
  ((symbolDict.lookup key).getD (":" ++ key ++ ":"))

/-- The `_session_title` dictionary (source lines 89-99). -/
def sessionTitleDict : List (String × String) :=
  [("msg", "Message"), ("stdout", "Output"), ("stderr", "Error output"),
   ("module_stdout", "Module output"), ("module_stderr", "Module error output"),
   ("rc", "Return code"), ("changed", "Environment changed"),
   ("_ansible_no_log", "Omit logs"), ("use_stderr", "Use STDERR to output")]

/-- The `_session_order` ordered dictionary (source lines 105-117). -/
def sessionOrder : List (String × Nat) :=
  [("_ansible_no_log", 3), ("use_stderr", 4), ("msg", 1), ("stdout", 1),
   ("module_stdout", 1), ("stderr", 1), ("module_stderr", 0), ("rc", 3),
   ("changed", 3)]

/-- Ansible display colors (`ansible.constants` defaults); the plugin only
forwards these names, their values never influence control flow. -/
def COLOR_OK : String := "green"

def COLOR_CHANGED : String := "yellow"

def COLOR_ERROR : String := "red"

def COLOR_SKIP : String := "cyan"

def COLOR_UNREACHABLE : String := "bright red"

def COLOR_WARN : String := "bright purple"

def COLOR_VERBOSE : String := "blue"

def COLOR_HIGHLIGHT : String := "white"

/-- Python string repetition `s * n`. -/
def strMul (s : String) (n : Nat) : String :=
  String.join (List.replicate n s)

/-- Python `str.center(width, fillchar)`: CPython places
`marg // 2 + (marg & width & 1)` fill characters on the left. -/
def pyCenter (s : String) (width : Nat) (fill : Char) : String :=
  if width ≤ s.length then s
  else
    let marg := width - s.length
    let left := marg / 2 + (marg &&& width &&& 1)
    String.mk (List.replicate left fill) ++ s ++ String.mk (List.replicate (marg - left) fill)

/-- The justification function passed to `stringtruncate`: `str.ljust` or
`str.rjust`. -/
inductive JustFn where
  | ljust
  | rjust
  deriving DecidableEq, Repr

/-- Python slice `l[:n]` for a possibly negative `n`. -/
def pySliceTo (l : List Char) (n : Int) : List Char :=
  if 0 ≤ n then l.take n.toNat else l.take (l.length - (-n).toNat)

/-- Python slice `l[n:]` for a possibly negative `n`. -/
def pySliceFrom (l : List Char) (n : Int) : List Char :=
  if 0 ≤ n then l.drop n.toNat else l.drop (l.length - (-n).toNat)

/-- The `stringtruncate` helper (source lines 166-217), over the character
sequence of the value. The surrounding `stringc` call only adds ANSI
escapes around the visible text and is omitted (see the header note). -/
def stringtruncate (value : List Char) (width : Nat) (justfn : JustFn)
    (fillchar : Char) (truncatePlaceholder : List Char) : List Char :=
  if value = [] then List.replicate width fillchar
  else
    let truncsize := truncatePlaceholder.length
    let doNotTruncate := value.length ≤ width ∨ width = 0
    let truncatedWidth : Int := (width : Int) - (truncsize : Int)
    if doNotTruncate then
      match justfn with
      | JustFn.ljust => value ++ List.replicate (width - value.length) fillchar
      | JustFn.rjust => List.replicate (width - value.length) fillchar ++ value
    else
      match justfn with
      | JustFn.ljust => pySliceTo value truncatedWidth ++ truncatePlaceholder
      | JustFn.rjust => truncatePlaceholder ++ pySliceFrom value truncatedWidth

/-- Lexicographic code-point comparison of character sequences, the order
Python `sorted` uses on strings; written as an executable Boolean. -/
def charListLeb : List Char → List Char → Bool
  | [], _ => true
  | _ :: _, [] => false
  | a :: as, b :: bs =>
    if a.toNat < b.toNat then true
    else if a.toNat = b.toNat then charListLeb as bs else false

/-- Python string comparison `a <= b`. -/
def strLeb (a b : String) : Bool :=
  charListLeb a.data b.data

/-- One per-host summary as returned by `stats.summarize(host)` — the
external `AggregateStats` API always supplies exactly these seven integer
counters. -/
structure HostSummary where
  ok : Nat
  failures : Nat
  unreachable : Nat
  changed : Nat
  skipped : Nat
  rescued : Nat
  ignored : Nat
  deriving DecidableEq, Repr

/-- The `dictsum` helper (source lines 220-238), specialised to the fixed
key set of the summary dictionaries: summing entrywise, where a key of
`values` missing from `totals` (here `skipped`, absent from the initial
totals dictionary) starts from the value in `values`, which coincides with
summing from `0`. -/
def dictsum (totals : HostSummary) (values : HostSummary) : HostSummary :=
  { ok := totals.ok + values.ok
    failures := totals.failures + values.failures
    unreachable := totals.unreachable + values.unreachable
    changed := totals.changed + values.changed
    skipped := totals.skipped + values.skipped
    rescued := totals.rescued + values.rescued
    ignored := totals.ignored + values.ignored }

/-- The payload of one `_display_summary_table_row` call: the host column
followed by the six displayed counters (success, changed, unreachable,
failed, rescued, ignored). -/
structure SummaryRow where
  host : String
  ok : Nat
  changed : Nat
  unreachable : Nat
  failed : Nat
  rescued : Nat
  ignored : Nat
  deriving DecidableEq, Repr

/-- The `v2_playbook_on_stats` handler (source lines 489-540), reduced to
the table data it prints: the per-host rows in sorted host order and the
totals row. `stats` is the external per-host summary table, keyed by the
distinct processed host names. The running `host_summary` variable starts
as Python `None`; the totals row reads `host_summary["ignored"]`
(source line 539), which raises when no host was processed — modelled by
`Except.error`. -/
def playbookOnStats (stats : List (String × HostSummary)) :
    Except Unit (List SummaryRow × SummaryRow) :=
  let sortedStats := List.insertionSort (fun a b => strLeb a.1 b.1 = true) stats
  let totals0 : HostSummary :=
    { ok := 0, failures := 0, unreachable := 0, changed := 0, skipped := 0,
      rescued := 0, ignored := 0 }
  let folded := sortedStats.foldl
    (fun (acc : HostSummary × Option HostSummary × List SummaryRow) entry =>
      let hs := entry.2
      (dictsum acc.1 hs, some hs,
        acc.2.2 ++ [{ host := entry.1, ok := hs.ok, changed := hs.changed,
                      unreachable := hs.unreachable, failed := hs.failures,
                      rescued := hs.rescued, ignored := hs.ignored }]))
    (totals0, Option.none, [])
  match folded.2.1 with
  | Option.none => Except.error ()
  | some lastSummary =>
      Except.ok (folded.2.2,
        { host := "Totals", ok := folded.1.ok, changed := folded.1.changed,
          unreachable := folded.1.unreachable, failed := folded.1.failures,
          rescued := folded.1.rescued, ignored := lastSummary.ignored })

/-- The fields of a `Play` object that the plugin reads. -/
structure Play where
  name : String
  hosts : List String
  deriving DecidableEq, Repr

/-- The mutable renderer attributes of `CallbackModule` (source lines
257-265). Attributes that `__init__` only annotates start from the
neutral values that the first events establish. -/
structure RState where
  currentPlay : Option Play := Option.none
  currentHost : String := ""
  delegatedVars : Option (List (String × PyVal)) := Option.none
  itemProcessed : Bool := false
  taskNameBuffer : Option String := Option.none
  taskDisplayName : String := ""
  shouldDisplay : Bool := false
  myRole : String := ""
  deriving DecidableEq, Repr

/-- The renderer state at plugin construction. -/
def initialState : RState := {}

/-- The `v2_playbook_on_play_start` handler (source lines 333-360). The
guard tests the truthiness of the cached play object, so any call after
the first rebinds the cache and prints nothing. -/
def playStart (s : RState) (play : Play) : RState × List Out :=
  match s.currentPlay with
  | some _ => ({ s with currentPlay := some play }, [])
  | Option.none =>
    let s1 := { s with currentPlay := some play }
    let name := play.name.trim
    let banner :=
      if name ≠ "" then pyCenter ("[PLAY: " ++ name ++ "]") TERMINAL_WIDTH '─'
      else pyCenter "[PLAY]" TERMINAL_WIDTH '─'
    let hostLines : List Out :=
      if play.hosts ≠ [] then
        [{ msg := "Hosts:" }] ++
          play.hosts.map (fun h => ({ msg := "  - " ++ stringc h COLOR_HIGHLIGHT } : Out)) ++
          [{ msg := strMul DIVIDER TERMINAL_WIDTH }]
      else []
    (s1, { msg := banner } :: hostLines)

/-- The `v2_runner_on_start` handler (source lines 391-393). -/
def runnerOnStart (s : RState) (host : String) : RState :=
  { s with currentHost := host }

/-- The `_get_tags` method (source lines 603-643). `playbookTags` is the
concatenation of the tag lists of every compiled task of the playbook
(the traversal of the external playbook object); `cliTags` is
`context.CLIARGS["tags"]` when that key is present. The Python code keeps
both collections as sets, modelled here by `dedup`; `next(iter(set))` is
only consulted for singleton sets, where it is deterministic. -/
def getTags (playbookTags : List String) (cliTags : Option (List String)) : List String :=
  let tags := playbookTags.dedup
  let requestedTags :=
    match cliTags with
    | some ts => ts.dedup
    | Option.none => ["all"]
  let tags :=
    if 1 < requestedTags.length ∨ requestedTags.head? ≠ some "all" then
      tags.filter (fun t => decide (t ∈ requestedTags))
    else tags
  List.insertionSort (fun a b => strLeb a b = true) tags

/-- The label that `CallbackBase._get_item_label` (external `ansible-core`
code) extracts from an item result: either a flat value or a dictionary,
which `_process_item_result_output` then inspects for `name`/`path`. -/
inductive ItemLabel where
  | val (v : PyVal)
  | dict (entries : List (String × PyVal))
  deriving DecidableEq, Repr

/-- The external collaborators the plugin calls into, injected as
capabilities: the run configuration (`Display.verbosity`,
`C.DISPLAY_SKIPPED_HOSTS`), `textwrap.fill`, `CallbackModule.dump_value`
(whose body delegates to the external `json`/`yaml` parsers and dumper,
returning `None` when the text parses to nothing), `json.dumps`,
`CallbackBase._get_item_label` and `CallbackBase._handle_warnings` (which
may display warning lines and strip warning keys from the result). -/
structure Externals where
  verbosity : Nat
  displaySkippedHosts : Bool
  fill : Nat → String → String
  dump : String → Option String
  jsonDumps : List (String × PyVal) → String
  itemLabel : List (String × PyVal) → ItemLabel
  handleWarnings : List (String × PyVal) → List (String × PyVal) × List Out

/-- A concrete instantiation of the external collaborators, used to
evaluate the embedding on closed inputs. -/
def extDefault : Externals :=
  { verbosity := 0
    displaySkippedHosts := false
    fill := fun _ text => text
    dump := fun _ => Option.none
    jsonDumps := fun _ => "\x7b\x7d"
    itemLabel := fun res => ItemLabel.val ((res.lookup "item").getD PyVal.none)
    handleWarnings := fun res => (res, []) }

/-- The fields of a `Task` object that the plugin reads: `name`, `action`,
the role name when `task._role` is set, the truthiness of the `when`
clause, and the task arguments. -/
structure STask where
  name : String
  action : String
  roleName : Option String := Option.none
  whenActive : Bool := false
  args : List (String × PyVal) := []
  deriving DecidableEq, Repr

/-- The outcome of `task.evaluate_conditional(templar, host_vars)` for one
host: a boolean, or a raised exception. -/
inductive EvalOutcome where
  | ok (b : Bool)
  | err
  deriving DecidableEq, Repr

/-- The variable-resolution context for `_display_task_decision_score`:
the task has a variable manager whose `hostvars` mapping yields, for each
known host, the outcome of evaluating the conditional of the task against
the variables of that host (the templating engine is external, so only
the per-host outcome is modelled). -/
structure EvalCtx where
  hostEvals : List (String × EvalOutcome)
  deriving DecidableEq, Repr

/-- A task result as delivered to the per-host handlers: the originating
host name (`result._host.get_name()`), the `_ansible_delegated_vars`
dictionary when present (lifted out of the flat mapping because its value
is itself a dictionary), and the remaining `result._result` mapping. -/
structure TaskResult where
  hostName : String
  delegated : Option (List (String × PyVal)) := Option.none
  result : List (String × PyVal) := []
  deriving DecidableEq, Repr

/-- The `_is_run_verbose` method (source lines 562-571). -/
def isRunVerbose (verbosity : Nat) (result : List (String × PyVal)) (threshold : Nat) : Bool :=
  (decide (threshold ≤ verbosity) || (result.lookup "_ansible_verbose_always").isSome)
    && (result.lookup "_ansible_verbose_override").isNone

/-- Python dictionary assignment `d[k] = v` on an association list:
replaces in place when the key exists, appends otherwise. -/
def dictSet (d : List (String × PyVal)) (k : String) (v : PyVal) : List (String × PyVal) :=
  if (d.lookup k).isSome then d.map (fun kv => if kv.1 = k then (k, v) else kv)
  else d ++ [(k, v)]

/-- Python `d.pop(k, None)` / `del d[k]` on an association list. -/
def dictPop (d : List (String × PyVal)) (k : String) : List (String × PyVal) :=
  d.filter (fun kv => kv.1 != k)

/-- The `_handle_exception` method (source lines 542-560); `verbosity` is
the display verbosity consulted through `_is_run_verbose(verbosity=3)`. -/
def handleException (verbosity : Nat) (result : List (String × PyVal))
    (useStderr : Bool) : List (String × PyVal) :=
  match result.lookup "exception" with
  | Option.none => result
  | some exc =>
    let result1 := dictSet result "use_stderr" (PyVal.bool useStderr)
    let baseMsg := "An exception occurred during task execution. "
    let pair :=
      if ¬ (3 ≤ verbosity) then
        let error := ((exc.toStr.trim).splitOn "\n").getLastD ""
        (result1, baseMsg ++ "To see the full traceback, use -vvv. The error was: " ++ error)
      else if (result1.lookup "module_stderr").isSome then
        let msg :=
          if exc ≠ (result1.lookup "module_stderr").getD PyVal.none then
            "The full traceback is:\n" ++ exc.toStr
          else baseMsg
        (dictPop result1 "exception", msg)
      else (result1, baseMsg)
    dictSet pair.1 "stderr" (PyVal.str pair.2)

/-- The `_get_task_display_name` method (source lines 677-686). -/
def getTaskDisplayName (s : RState) (task : STask) : RState :=
  let n :=
    if task.name ≠ "" then task.name
    else if task.action = "debug" then task.action
    else ""
  { s with taskDisplayName := n, shouldDisplay := n != "" }

/-- The inner per-host loop of `_display_task_decision_score` (source
lines 917-929): scanning the hosts, the first conditional that evaluates
to false ends the scan with score `0.0`; an evaluation error only sets
the exception flag; the `for`-`else` clause promotes the score to `1.0`
when the scan finished without a false result and without an error,
leaving `0.5` otherwise. -/
def whenLoopScore : List EvalOutcome → Bool → ℚ
  | [], exception => if exception then 1/2 else 1
  | EvalOutcome.ok false :: _, _ => 0
  | EvalOutcome.ok true :: rest, exception => whenLoopScore rest exception
  | EvalOutcome.err :: rest, _ => whenLoopScore rest true

/-- The `_display_task_decision_score` method (source lines 891-940).
`ctx` is the variable-resolution context (`None` when the task has no
variable manager). -/
def displayTaskDecisionScore (verbosity : Nat) (task : STask) (ctx : Option EvalCtx) : ℚ :=
  let score : ℚ :=
    match ctx, task.whenActive with
    | some c, true => whenLoopScore (c.hostEvals.map Prod.snd) false
    | _, _ =>
      if task.action = "debug" ∧ task.args ≠ [] ∧ (task.args.lookup "verbosity").isSome then
        if ((task.args.lookup "verbosity").getD PyVal.none).pyInt ≤ (verbosity : Int)
        then 1 else 0
      else 1/2
  if task.name = "" ∧ task.action ≠ "debug" then 0 else score

/-- The `_flush_display_buffer` method (source lines 972-978). -/
def flushDisplayBuffer (s : RState) : RState × List Out :=
  match s.taskNameBuffer with
  | Option.none => (s, [])
  | some buffered =>
      ({ s with taskNameBuffer := Option.none },
       [{ msg := buffered, newline := false }])

/-- The `_display_task_name` method (source lines 942-970), entered from
both task-start notification handlers (source lines 362-368). -/
def displayTaskName (ext : Externals) (s : RState) (task : STask) (ctx : Option EvalCtx)
    (isHandler : Bool) : RState × List Out :=
  let s1 := getTaskDisplayName { s with itemProcessed := false } task
  if s1.taskDisplayName = "" then (s1, [])
  else
    let rolePair :=
      match task.roleName with
      | some rn =>
        let formattedRole := stringc (rn ++ " |") "dark gray"
        ({ s1 with myRole := formattedRole }, formattedRole ++ " " ++ s1.taskDisplayName)
      | Option.none => (s1, s1.taskDisplayName)
    let tempName := if isHandler then rolePair.2 ++ " (via handler)" else rolePair.2
    let tempName := " " ++ symbolStr "empty" ++ " " ++ tempName ++ "... "
    let s3 := { rolePair.1 with taskNameBuffer := some tempName }
    let displayScore := displayTaskDecisionScore ext.verbosity task ctx
    if 1 ≤ displayScore ∨ ext.displaySkippedHosts = true then flushDisplayBuffer s3
    else if displayScore < 1/10 then ({ s3 with taskNameBuffer := Option.none }, [])
    else (s3, [])

/-- The `_preprocess_result` method (source lines 688-695). -/
def preprocessResult (ext : Externals) (s : RState) (r : TaskResult) :
    RState × List Out × TaskResult :=
  let s1 := { s with delegatedVars := r.delegated }
  let fp := flushDisplayBuffer s1
  let res1 := handleException ext.verbosity r.result false
  let wp := ext.handleWarnings res1
  (fp.1, fp.2 ++ wp.2, { r with result := wp.1 })

/-- The `_get_host_string` method (source lines 697-710). The
`ansible_host` entry is always present in a delegated-vars dictionary
supplied by the host process, so the lookup defaults rather than raising. -/
def getHostString (s : RState) (r : TaskResult) (pfx : String) : String :=
  if r.hostName = "localhost" then ""
  else
    let taskHost := pfx ++ r.hostName
    match s.delegatedVars with
    | some dv =>
      if dv ≠ [] then
        taskHost ++ " " ++ symbolStr "arrow_right" ++ " " ++ pfx
          ++ ((dv.lookup "ansible_host").getD PyVal.none).toStr
      else taskHost
    | Option.none => taskHost

/-- Python-style `splitlines` of a stripped text: the empty string has no
lines. -/
def splitlines (s : String) : List String :=
  if s = "" then [] else s.splitOn "\n"

/-- Python `str.capitalize`: first character uppercased, the rest
lowercased. -/
def pyCapitalize (s : String) : String :=
  (s.take 1).toUpper ++ (s.drop 1).toLower

/-- The `reindent_session` method (source lines 1012-1040). `dump` and
`fill` come from `Ext` (external `yaml`/`textwrap` calls); the `dumped`
flag follows the Python truthiness of `dump_value`. -/
def reindentSession (ext : Externals) (myRole : String) (title : String) (text : String)
    (width : Nat) (color : String) : String :=
  let textwidth : Int := (width : Int) - (title.length : Int)
  let textstr0 := text.trim
  let dumped :=
    if textstr0.startsWith "---" || textstr0.startsWith "\x7b" then
      match ext.dump textstr0 with
      | some d => if d ≠ "" then some d else Option.none
      | Option.none => Option.none
    else Option.none
  let textstr := dumped.getD textstr0
  let lines := splitlines textstr
  let formattedTitle := if color ≠ "" then stringc (title ++ ":") color else title
  let output := "   " ++ myRole ++ " " ++ formattedTitle ++ "\n"
  if lines.length = 1 ∧ (textstr.length : Int) ≤ textwidth ∧ dumped = Option.none then
    let formattedLine := if color ≠ "" then stringc textstr color else textstr
    output ++ "   " ++ myRole ++ " " ++ formattedLine
  else
    lines.foldl
      (fun acc line =>
        let filled := ext.fill (width - myRole.length) line
        let filled := if color ≠ "" then stringc filled color else filled
        let pieces := ("   " ++ myRole ++ " " ++ filled).splitOn "\n"
        acc ++ String.intercalate ("\n   " ++ myRole ++ " ") pieces)
      output

/-- The two session loops of `_process_result_output` (source lines
755-773): the recognised sessions in `_session_order`, each shown when
present, truthy and above its verbosity threshold (or unconditionally for
the message of a failed result), followed by the unrecognised keys shown
at verbosity 2. -/
def sessionsText (ext : Externals) (s : RState) (r : TaskResult) (status : String)
    (displayColor : String) : String :=
  let part1 := sessionOrder.foldl
    (fun acc kv =>
      if ((r.result.lookup kv.1).isSome
            ∧ ((r.result.lookup kv.1).getD PyVal.none).truthy = true
            ∧ isRunVerbose ext.verbosity r.result kv.2 = true)
          ∨ (status = "failed" ∧ kv.1 = "msg") then
        acc ++ reindentSession ext s.myRole ((sessionTitleDict.lookup kv.1).getD kv.1)
          ((r.result.lookup kv.1).getD PyVal.none).toStr TERMINAL_WIDTH displayColor
      else acc)
    ""
  let part2 := r.result.foldl
    (fun acc kv =>
      if (sessionTitleDict.lookup kv.1).isNone ∧ kv.2.truthy = true
          ∧ isRunVerbose ext.verbosity r.result 2 = true then
        acc ++ reindentSession ext s.myRole
          (pyCapitalize ((kv.1.replace "_" " ").replace "." " "))
          kv.2.toStr TERMINAL_WIDTH displayColor
      else acc)
    ""
  part1 ++ part2

/-- The host-and-status head line of `_process_result_output` (source
lines 745-753), built only when no item loop is in progress. -/
def resultHeadLine (s : RState) (r : TaskResult) (status : String)
    (symbolChar : String) : String :=
  getHostString s r "" ++ status.toUpper
    ++ (if symbolChar ≠ "" then "\r " ++ symbolChar ++ " \n" else "")

/-- The `_process_result_output` method (source lines 712-775). -/
def processResultOutput (ext : Externals) (s : RState) (r : TaskResult) (status : String)
    (symbolChar : String) (displayColor : String) : String :=
  if !s.shouldDisplay then ""
  else
    (if !s.itemProcessed then resultHeadLine s r status symbolChar else "")
      ++ sessionsText ext s r status displayColor

/-- The `_process_item_result_output` method (source lines 777-829):
returns the state (the first rendered item sets `_item_processed`), the
carriage-return write that erases the pending title placeholder, and the
compact item line. -/
def processItemResultOutput (ext : Externals) (s : RState) (r : TaskResult) (status : String)
    (symbolChar : String) (displayColor : String) : RState × List Out × String :=
  if !s.shouldDisplay then (s, [], "")
  else
    let firstPair : RState × List Out :=
      if !s.itemProcessed then
        ({ s with itemProcessed := true }, [{ msg := "\r", newline := false }])
      else (s, [])
    let s1 := firstPair.1
    let itemNameStr :=
      match ext.itemLabel r.result with
      | ItemLabel.val v => v.toStr
      | ItemLabel.dict entries =>
        if (entries.lookup "name").isSome then ((entries.lookup "name").getD PyVal.none).toStr
        else if (entries.lookup "path").isSome then ((entries.lookup "path").getD PyVal.none).toStr
        else
          "JSON: \x22"
            ++ String.mk (stringtruncate (ext.jsonDumps entries).toList 36 JustFn.ljust ' '
                  ("[...]".toList))
            ++ "\x22"
    let taskHost := getHostString s1 r "@"
    let host := if taskHost ≠ "" then " (" ++ taskHost ++ ")" else ""
    let errorInfo :=
      if status = "failed" then
        "\n" ++ reindentSession ext s1.myRole ((sessionTitleDict.lookup "stderr").getD "")
          ((r.result.lookup "msg").getD PyVal.none).toStr TERMINAL_WIDTH displayColor
      else ""
    (s1, firstPair.2,
      " " ++ symbolChar ++ " " ++ s1.myRole ++ " " ++ s1.taskDisplayName ++ ": "
        ++ itemNameStr ++ host ++ "... " ++ stringc status.toUpper displayColor
        ++ errorInfo)

/-- The `changed_artifacts` static method (source lines 1042-1055),
taking the `result._result` mapping. -/
def changed_artifacts (result : List (String × PyVal)) (status : String)
    (displayColor : String) : String × String :=
  let resultWasChanged := ((result.lookup "changed").getD PyVal.none).truthy
  if resultWasChanged then ("changed", COLOR_CHANGED) else (status, displayColor)

/-- The `v2_runner_on_ok` handler (source lines 395-410). -/
def runnerOnOk (ext : Externals) (s : RState) (r : TaskResult) : RState × List Out :=
  if s.itemProcessed then (s, [])
  else
    let pp := preprocessResult ext s r
    let sc := changed_artifacts pp.2.2.result "ok" COLOR_OK
    let taskResult := processResultOutput ext pp.1 pp.2.2 sc.1 (symbolStr "success") sc.2
    (pp.1, pp.2.1 ++ (if taskResult ≠ "" then [{ msg := taskResult, color := some sc.2 }] else []))

/-- The `v2_runner_on_failed` handler (source lines 424-438). -/
def runnerOnFailed (ext : Externals) (s : RState) (r : TaskResult) (ignoreErrors : Bool) :
    RState × List Out :=
  if s.itemProcessed then (s, [])
  else
    let pp := preprocessResult ext s r
    let status := if ignoreErrors then "ignored" else "failed"
    let color := if ignoreErrors then COLOR_SKIP else COLOR_ERROR
    let taskResult := processResultOutput ext pp.1 pp.2.2 status (symbolStr "failure") color
    (pp.1, pp.2.1 ++ (if taskResult ≠ "" then [{ msg := taskResult, color := some color }] else []))

/-- The `v2_runner_on_unreachable` handler (source lines 440-449). -/
def runnerOnUnreachable (ext : Externals) (s : RState) (r : TaskResult) : RState × List Out :=
  let fp := flushDisplayBuffer s
  let taskResult := processResultOutput ext fp.1 r "unreachable" (symbolStr "dead")
    COLOR_UNREACHABLE
  (fp.1, fp.2 ++ (if taskResult ≠ "" then
    [{ msg := taskResult, color := some COLOR_UNREACHABLE }] else []))

/-- The `v2_runner_item_on_ok` handler (source lines 451-464). -/
def runnerItemOnOk (ext : Externals) (s : RState) (r : TaskResult) : RState × List Out :=
  let pp := preprocessResult ext s r
  let sc := changed_artifacts pp.2.2.result "ok" COLOR_OK
  let trip := processItemResultOutput ext pp.1 pp.2.2 sc.1 (symbolStr "success") sc.2
  (trip.1, pp.2.1 ++ trip.2.1
    ++ (if trip.2.2 ≠ "" then [{ msg := trip.2.2, color := some sc.2 }] else []))

/-- The `v2_runner_item_on_failed` handler (source lines 480-487). -/
def runnerItemOnFailed (ext : Externals) (s : RState) (r : TaskResult) : RState × List Out :=
  let fp := flushDisplayBuffer s
  let trip := processItemResultOutput ext fp.1 r "failed" (symbolStr "failure") COLOR_ERROR
  (trip.1, fp.2 ++ trip.2.1
    ++ (if trip.2.2 ≠ "" then [{ msg := trip.2.2, color := some COLOR_ERROR }] else []))

/-- A two-host stats table: the hosts differ in every counter, and in
particular in the `ignored` counter (2 for `web1`, 0 for `web2`). -/
def exStats : List (String × HostSummary) :=
  [("web1", { ok := 3, failures := 0, unreachable := 0, changed := 1,
              skipped := 0, rescued := 0, ignored := 2 }),
   ("web2", { ok := 2, failures := 1, unreachable := 0, changed := 0,
              skipped := 0, rescued := 0, ignored := 0 })]

/-- A first play object. -/
def playOne : Play := { name := "first play", hosts := ["web1"] }

/-- A second, distinct play object. -/
def playTwo : Play := { name := "second play", hosts := ["web2"] }

/-- A named task with a `when` clause. -/
def cexTask : STask :=
  { name := "copy config", action := "template", whenActive := true }

/-- An evaluation context in which the first host raises during
conditional evaluation and the second host evaluates to false. -/
def cexCtx : EvalCtx :=
  { hostEvals := [("host1", EvalOutcome.err), ("host2", EvalOutcome.ok false)] }

/-- An evaluation context in which the single host evaluates to true. -/
def witCtx : EvalCtx :=
  { hostEvals := [("host1", EvalOutcome.ok true)] }

/-- A task with no name whose action is not `debug`. -/
def unnamedTask : STask := { name := "", action := "command" }

/-- A renderer state in the middle of an item loop, title already shown. -/
def stateItemLoop : RState :=
  { initialState with itemProcessed := true, shouldDisplay := true,
                      taskDisplayName := "install packages" }

/-- A renderer state with a displayed title and no item loop in progress. -/
def stateShown : RState :=
  { initialState with shouldDisplay := true, taskDisplayName := "install packages" }

/-- A renderer state carrying delegated-host variables. -/
def stateDelegated : RState :=
  { stateShown with delegatedVars := some [("ansible_host", PyVal.str "db1")] }

/-- A result originating from `localhost`. -/
def resLocal : TaskResult := { hostName := "localhost" }

/-- A result originating from the host `web1`. -/
def resWeb : TaskResult := { hostName := "web1" }

/-! Helper lemmas. -/

/-- String append is associative. -/
theorem strAppendAssoc (a b c : String) : a ++ b ++ c = a ++ (b ++ c) := by
  apply String.ext
  simp [List.append_assoc]

/-- The empty string is a left unit for append. -/
theorem strEmptyAppend (s : String) : "" ++ s = s := rfl

/-- `getTaskDisplayName` never touches the item-loop flag. -/
theorem getTaskDisplayName_itemProcessed (s : RState) (t : STask) :
    (getTaskDisplayName s t).itemProcessed = s.itemProcessed := by
  simp [getTaskDisplayName]

/-- `flushDisplayBuffer` never touches the item-loop flag. -/
theorem flushDisplayBuffer_itemProcessed (s : RState) :
    (flushDisplayBuffer s).1.itemProcessed = s.itemProcessed := by
  unfold flushDisplayBuffer
  cases s.taskNameBuffer <;> simp

/-- The per-host `when` scan yields one of the three scores. -/
theorem whenLoopScore_values (l : List EvalOutcome) (exc : Bool) :
    whenLoopScore l exc = 0 ∨ whenLoopScore l exc = 1/2 ∨ whenLoopScore l exc = 1 := by
  induction l generalizing exc with
  | nil => cases exc <;> simp [whenLoopScore]
  | cons e rest ih =>
    cases e with
    | ok b =>
      cases b
      · simp [whenLoopScore]
      · simpa [whenLoopScore] using ih exc
    | err => simpa [whenLoopScore] using ih true

/-- The scan ends at score `0` exactly when some host evaluated to false. -/
theorem whenLoopScore_eq_zero_iff (l : List EvalOutcome) (exc : Bool) :
    whenLoopScore l exc = 0 ↔ EvalOutcome.ok false ∈ l := by
  induction l generalizing exc with
  | nil => cases exc <;> norm_num [whenLoopScore]
  | cons e rest ih =>
    cases e with
    | ok b => cases b <;> simp [whenLoopScore, ih]
    | err => simp [whenLoopScore, ih]

/-- The scan ends at score `1` exactly when every host evaluated to true
and no error was recorded. -/
theorem whenLoopScore_eq_one_iff (l : List EvalOutcome) (exc : Bool) :
    whenLoopScore l exc = 1 ↔ ((∀ e ∈ l, e = EvalOutcome.ok true) ∧ exc = false) := by
  induction l generalizing exc with
  | nil => cases exc <;> norm_num [whenLoopScore]
  | cons e rest ih =>
    cases e with
    | ok b => cases b <;> norm_num [whenLoopScore, ih]
    | err =>
      norm_num [whenLoopScore, ih]
      intro h
      exact EvalOutcome.noConfusion h

/-- C1: in the run-end summary table built by `v2_playbook_on_stats`, the
`ok`, `changed`, `unreachable`, `failed` and `rescued` cells of the totals
row are the accumulated `dictsum` totals, but the `ignored` cell reads the
summary of the last processed host (source line 539): on a two-host table
where `web1` has `ignored = 2` and `web2` has `ignored = 0`, the totals
row reports `ok = 5`, `changed = 1`, `failed = 1` as the claim describes,
yet reports `ignored = 0` while the column sum is `2`. -/
theorem stats_totals_ignored_last_host :
    playbookOnStats exStats =
      Except.ok
        ([{ host := "web1", ok := 3, changed := 1, unreachable := 0, failed := 0,
            rescued := 0, ignored := 2 },
          { host := "web2", ok := 2, changed := 0, unreachable := 0, failed := 1,
            rescued := 0, ignored := 0 }],
         { host := "Totals", ok := 5, changed := 1, unreachable := 0, failed := 1,
           rescued := 0, ignored := 0 })
    ∧ (exStats.map (fun e => e.2.ignored)).sum = 2 :=
  ⟨rfl, rfl⟩

/-- C4: with no processed host, the loop of `v2_playbook_on_stats` never
binds `host_summary`, so the totals row dereferences `None`
(source line 539) and the handler raises instead of returning — the
embedding reports the raise as `Except.error`. -/
theorem stats_empty_handler_raises :
    playbookOnStats [] = Except.error () :=
  rfl

/-- C2: `v2_playbook_on_play_start` short-circuits on the truthiness of
the cached play, not on its identity: after a first play was rendered,
a call with a different play rebinds the cache but prints nothing, while
the claim requires a banner for a distinct play. -/
theorem second_play_banner_suppressed :
    playOne ≠ playTwo
    ∧ (playStart initialState playOne).2 ≠ []
    ∧ (playStart (playStart initialState playOne).1 playTwo).2 = []
    ∧ ((playStart (playStart initialState playOne).1 playTwo).1).currentPlay = some playTwo := by
  refine ⟨by decide, by decide, rfl, rfl⟩

/-- C5: `changed_artifacts`, called by `v2_runner_on_ok` with status
`"ok"` and color `C.COLOR_OK`, relabels the result `"changed"` with the
changed color exactly when the `changed` entry is present and truthy, and
keeps the original status and color otherwise. -/
theorem ok_relabeled_changed (result : List (String × PyVal)) :
    ((∃ v, result.lookup "changed" = some v ∧ v.truthy = true) →
      changed_artifacts result "ok" COLOR_OK = ("changed", COLOR_CHANGED))
    ∧ ((∀ v, result.lookup "changed" = some v → v.truthy = false) →
      changed_artifacts result "ok" COLOR_OK = ("ok", COLOR_OK)) := by
  constructor
  · rintro ⟨v, hv, ht⟩
    simp [changed_artifacts, hv, ht]
  · intro h
    cases hc : result.lookup "changed" with
    | none => simp [changed_artifacts, hc, PyVal.truthy]
    | some v => simp [changed_artifacts, hc, h v hc]

/-- Witness for C5 at concrete results: a truthy `changed` entry
relabels, an absent one keeps `"ok"`. -/
theorem ok_relabeled_changed_witness :
    changed_artifacts [("changed", PyVal.bool true)] "ok" COLOR_OK = ("changed", COLOR_CHANGED)
    ∧ changed_artifacts [("rc", PyVal.int 0)] "ok" COLOR_OK = ("ok", COLOR_OK) :=
  ⟨(ok_relabeled_changed [("changed", PyVal.bool true)]).1 ⟨PyVal.bool true, rfl, rfl⟩,
   (ok_relabeled_changed [("rc", PyVal.int 0)]).2 (fun v hv => Option.noConfusion hv)⟩

/-- C8 counterexample: the non-empty string `abcdef` is longer than the
requested width `3`, yet left-justified truncation with placeholder
`[...]` returns a string of length `9`, not `3`: for widths below the
placeholder length the negative Python slice keeps most of the value. -/
theorem truncate_narrow_width_cex :
    ("abcdef".toList ≠ ([] : List Char))
    ∧ 3 < "abcdef".toList.length
    ∧ (stringtruncate "abcdef".toList 3 JustFn.ljust ' ' "[...]".toList).length = 9
    ∧ (stringtruncate "abcdef".toList 3 JustFn.ljust ' ' "[...]".toList).length ≠ 3 := by
  refine ⟨by decide, by decide, by decide, by decide⟩

/-- The Python string order is total. -/
theorem charListLeb_total (a : List Char) :
    ∀ b, charListLeb a b = true ∨ charListLeb b a = true := by
  induction a with
  | nil => intro b; left; rfl
  | cons x xs ih =>
    intro b
    cases b with
    | nil => right; rfl
    | cons y ys =>
      by_cases h1 : x.toNat < y.toNat
      · left; simp [charListLeb, h1]
      · by_cases h2 : x.toNat = y.toNat
        · rcases ih ys with h | h
          · left; simp [charListLeb, h1, h2, h]
          · right
            have h3 : ¬ y.toNat < x.toNat := by omega
            simp [charListLeb, h3, h2.symm, h]
        · right
          have h3 : y.toNat < x.toNat := by omega
          simp [charListLeb, h3]

/-- The Python string order is transitive. -/
theorem charListLeb_trans (a : List Char) :
    ∀ b c, charListLeb a b = true → charListLeb b c = true → charListLeb a c = true := by
  induction a with
  | nil => intro b c _ _; rfl
  | cons x xs ih =>
    intro b c h1 h2
    cases b with
    | nil => exact absurd h1 (by simp [charListLeb])
    | cons y ys =>
      cases c with
      | nil => exact absurd h2 (by simp [charListLeb])
      | cons z zs =>
        simp only [charListLeb] at h1 h2 ⊢
        split at h1
        · rename_i hxy
          have hxz : x.toNat < z.toNat := by
            rcases Nat.lt_or_ge y.toNat z.toNat with hyz | hyz
            · omega
            · by_cases hyze : y.toNat = z.toNat
              · omega
              · rw [if_neg (by omega : ¬ y.toNat < z.toNat), if_neg hyze] at h2
                exact Bool.noConfusion h2
          rw [if_pos hxz]
        · rename_i hxy
          split at h1
          · rename_i hxye
            split at h2
            · rename_i hyz
              rw [if_pos (by omega : x.toNat < z.toNat)]
            · rename_i hyz
              split at h2
              · rename_i hyze
                rw [if_neg (by omega : ¬ x.toNat < z.toNat),
                    if_pos (by omega : x.toNat = z.toNat)]
                exact ih ys zs h1 h2
              · exact Bool.noConfusion h2
          · exact Bool.noConfusion h1

/-- When the requested tags are a non-empty set other than the singleton
`all`, the filtering branch of `_get_tags` is taken. -/
theorem getTags_filter_cond (req : List String) (hne : req ≠ [])
    (hnall : req.dedup ≠ ["all"]) :
    1 < req.dedup.length ∨ req.dedup.head? ≠ some "all" := by
  have hd : req.dedup ≠ [] := by
    simpa [List.dedup_eq_nil] using hne
  cases h : req.dedup with
  | nil => exact absurd h hd
  | cons a rest =>
    cases rest with
    | nil =>
      right
      simp only [List.head?_cons, ne_eq, Option.some.injEq]
      intro ha
      exact hnall (by rw [h, ha])
    | cons b rest2 => left; simp

/-- C6: the active-tag set computed by `_get_tags` is the sorted
intersection of the playbook tags with the requested tags whenever the
requested set is not exactly the default singleton `all`; with no
requested tags (the default, equivalent to requesting exactly `all`) the
full playbook tag set is returned unfiltered; and the result is sorted.
In particular, playbook tags `a`, `b`, `c` with requested tags `b`, `c`
yield exactly `b`, `c`, and with no requested tags yield `a`, `b`, `c`. -/
theorem tags_intersection_sorted :
    getTags ["a", "b", "c"] (some ["b", "c"]) = ["b", "c"]
    ∧ getTags ["a", "b", "c"] Option.none = ["a", "b", "c"]
    ∧ (∀ pb req t, req ≠ [] → req.dedup ≠ ["all"] →
        (t ∈ getTags pb (some req) ↔ t ∈ pb ∧ t ∈ req))
    ∧ (∀ pb t, t ∈ getTags pb Option.none ↔ t ∈ pb)
    ∧ (∀ pb cli, List.Sorted (fun a b => strLeb a b = true) (getTags pb cli)) := by
  refine ⟨by decide, by decide, ?_, ?_, ?_⟩
  · intro pb req t hne hnall
    have hcond := getTags_filter_cond req hne hnall
    simp only [getTags]
    rw [if_pos hcond, List.mem_insertionSort, List.mem_filter]
    simp [List.mem_dedup]
  · intro pb t
    simp only [getTags]
    rw [if_neg (by simp), List.mem_insertionSort, List.mem_dedup]
  · intro pb cli
    haveI : IsTotal String (fun a b => strLeb a b = true) :=
      ⟨fun a b => charListLeb_total a.data b.data⟩
    haveI : IsTrans String (fun a b => strLeb a b = true) :=
      ⟨fun a b c => charListLeb_trans a.data b.data c.data⟩
    simp only [getTags]
    exact List.sorted_insertionSort _ _

/-- Witness for C6 at a concrete playbook and request: with requested
tags `b`, `x` (a non-default set), membership in the computed set is
exactly joint membership in the playbook tags and the requested tags. -/
theorem tags_intersection_sorted_witness :
    (["b", "x"] : List String) ≠ []
    ∧ (["b", "x"] : List String).dedup ≠ ["all"]
    ∧ ("b" ∈ getTags ["a", "b"] (some ["b", "x"]) ↔
        "b" ∈ (["a", "b"] : List String) ∧ "b" ∈ (["b", "x"] : List String)) :=
  ⟨by decide, by decide,
   tags_intersection_sorted.2.2.1 ["a", "b"] ["b", "x"] "b" (by decide) (by decide)⟩

/-- C3 counterexample: for a named task with a `when` clause whose
conditional raises on `host1` and evaluates false on `host2`, the score
is `0.0`, not the default `0.5` the claim requires whenever evaluation
raises an error for any host. -/
theorem score_error_not_default :
    displayTaskDecisionScore 0 cexTask (some cexCtx) = 0 ∧ ((0 : ℚ) ≠ 1/2) := by
  constructor
  · rfl
  · norm_num

/-- C3 amended: for a task with a `when` clause and an available
variable-resolution context (and which is not force-suppressed for
lacking a name), the score is `0.0` exactly when the conditional
evaluates to false for some host — even if the evaluation raised an
error for another host; `1.0` exactly when it evaluates to true for every
host with no evaluation error; and stays at the default `0.5` exactly in
the remaining case: no host evaluates to false and the evaluation raised
an error for at least one host. -/
theorem score_when_characterization (v : Nat) (t : STask) (c : EvalCtx)
    (hw : t.whenActive = true) (hn : ¬(t.name = "" ∧ t.action ≠ "debug")) :
    (displayTaskDecisionScore v t (some c) = 0 ↔
      EvalOutcome.ok false ∈ c.hostEvals.map Prod.snd)
    ∧ (displayTaskDecisionScore v t (some c) = 1 ↔
      ∀ e ∈ c.hostEvals.map Prod.snd, e = EvalOutcome.ok true)
    ∧ (displayTaskDecisionScore v t (some c) = 1/2 ↔
      (EvalOutcome.ok false ∉ c.hostEvals.map Prod.snd
        ∧ ¬ ∀ e ∈ c.hostEvals.map Prod.snd, e = EvalOutcome.ok true)) := by
  have hscore : displayTaskDecisionScore v t (some c)
      = whenLoopScore (c.hostEvals.map Prod.snd) false := by
    simp only [displayTaskDecisionScore, hw]
    rw [if_neg hn]
  refine ⟨?_, ?_, ?_⟩
  · rw [hscore, whenLoopScore_eq_zero_iff]
  · rw [hscore, whenLoopScore_eq_one_iff]
    simp
  · rw [hscore]
    constructor
    · intro h
      refine ⟨?_, ?_⟩
      · intro hmem
        rw [(whenLoopScore_eq_zero_iff _ false).mpr hmem] at h
        norm_num at h
      · intro hall
        rw [(whenLoopScore_eq_one_iff _ false).mpr ⟨hall, rfl⟩] at h
        norm_num at h
    · rintro ⟨hmem, hall⟩
      rcases whenLoopScore_values (c.hostEvals.map Prod.snd) false with h | h | h
      · exact absurd ((whenLoopScore_eq_zero_iff _ false).mp h) hmem
      · exact h
      · exact absurd ((whenLoopScore_eq_one_iff _ false).mp h).1 hall

/-- Witness for C3 at a concrete task and context: with a single host
whose conditional evaluates to true, the force-show characterization
holds. -/
theorem score_when_characterization_witness :
    displayTaskDecisionScore 0 cexTask (some witCtx) = 1 ↔
      ∀ e ∈ witCtx.hostEvals.map Prod.snd, e = EvalOutcome.ok true :=
  (score_when_characterization 0 cexTask witCtx rfl (by decide)).2.1

/-- C7: a task with no name whose action is not `debug` is
force-suppressed: the decision score is `0.0` regardless of any
conditional evaluation, and the task-start rendering writes nothing to
either sink and buffers no title. -/
theorem unnamed_task_suppressed (ext : Externals) (s : RState) (task : STask)
    (ctx : Option EvalCtx) (ih : Bool) (v : Nat)
    (hname : task.name = "") (haction : task.action ≠ "debug") :
    displayTaskDecisionScore v task ctx = 0
    ∧ (displayTaskName ext s task ctx ih).2 = []
    ∧ ((displayTaskName ext s task ctx ih).1).taskNameBuffer = s.taskNameBuffer := by
  refine ⟨?_, ?_, ?_⟩
  · simp only [displayTaskDecisionScore]
    rw [if_pos ⟨hname, haction⟩]
  · simp [displayTaskName, getTaskDisplayName, hname, haction]
  · simp [displayTaskName, getTaskDisplayName, hname, haction]

/-- Witness for C7: a concrete nameless `command` task is scored `0.0`
and renders nothing. -/
theorem unnamed_task_suppressed_witness :
    displayTaskDecisionScore 0 unnamedTask Option.none = 0
    ∧ (displayTaskName extDefault initialState unnamedTask Option.none false).2 = []
    ∧ ((displayTaskName extDefault initialState unnamedTask Option.none false).1).taskNameBuffer
        = initialState.taskNameBuffer :=
  unnamed_task_suppressed extDefault initialState unnamedTask Option.none false 0 rfl (by decide)

/-- C8 amended: for every non-empty string longer than the requested
width, provided the width is at least the five-character placeholder
(the claim fails for smaller widths, see the counterexample),
left-justified truncation with placeholder `[...]` yields the first
`width - 5` characters followed by `[...]`, a string of exactly the
requested width ending in the placeholder. -/
theorem truncate_ljust_amended (value : List Char) (width : Nat) (fillchar : Char)
    (hne : value ≠ []) (hgt : width < value.length) (hw : 5 ≤ width) :
    (stringtruncate value width JustFn.ljust fillchar ("[...]".toList)).length = width
    ∧ stringtruncate value width JustFn.ljust fillchar ("[...]".toList)
        = value.take (width - 5) ++ "[...]".toList := by
  have hlen5 : ("[...]".toList).length = 5 := by decide
  have key : stringtruncate value width JustFn.ljust fillchar ("[...]".toList)
      = value.take (width - 5) ++ "[...]".toList := by
    simp only [stringtruncate]
    rw [if_neg hne, if_neg (by omega : ¬(value.length ≤ width ∨ width = 0))]
    simp only [pySliceTo, hlen5]
    rw [if_pos (by omega : (0 : Int) ≤ (width : Int) - ((5 : Nat) : Int))]
    congr 2
    omega
  refine ⟨?_, key⟩
  rw [key, List.length_append, List.length_take, hlen5]
  omega

/-- Witness for C8 at the claim instance: a 50-character string truncated
to width 20 yields its first 15 characters followed by `[...]`, of
length 20. -/
theorem truncate_ljust_amended_witness :
    (stringtruncate (List.replicate 50 'a') 20 JustFn.ljust ' ' ("[...]".toList)).length = 20
    ∧ stringtruncate (List.replicate 50 'a') 20 JustFn.ljust ' ' ("[...]".toList)
        = (List.replicate 50 'a').take (20 - 5) ++ "[...]".toList :=
  truncate_ljust_amended (List.replicate 50 'a') 20 ' ' (by decide) (by decide) (by decide)

/-- `_display_task_name` begins by resetting the item-loop flag and no
later step of it touches the flag again. -/
theorem displayTaskName_clears_item_flag (ext : Externals) (s : RState) (t : STask)
    (ctx : Option EvalCtx) (ih : Bool) :
    ((displayTaskName ext s t ctx ih).1).itemProcessed = false := by
  unfold displayTaskName
  repeat' split
  all_goals
    first
      | rfl
      | (simp [getTaskDisplayName, flushDisplayBuffer]
         repeat' split
         all_goals rfl)

/-- C9: once the item-loop flag is set, the aggregate per-host ok and
failed handlers return the state unchanged and write nothing to either
sink; the task-start rendering clears the flag; and an item result
rendered while the title is displayed leaves the flag set. -/
theorem item_loop_suppresses_host_results (ext : Externals) (s : RState) (r : TaskResult)
    (ig : Bool) (t : STask) (ctx : Option EvalCtx) (ih : Bool)
    (h : s.itemProcessed = true) :
    runnerOnOk ext s r = (s, [])
    ∧ runnerOnFailed ext s r ig = (s, [])
    ∧ ((displayTaskName ext s t ctx ih).1).itemProcessed = false
    ∧ (∀ s2 r2 st2 sym2 col2, s2.shouldDisplay = true →
        ((processItemResultOutput ext s2 r2 st2 sym2 col2).1).itemProcessed = true) := by
  refine ⟨?_, ?_, displayTaskName_clears_item_flag ext s t ctx ih, ?_⟩
  · simp [runnerOnOk, h]
  · simp [runnerOnFailed, h]
  · intro s2 r2 st2 sym2 col2 hsd
    cases hip : s2.itemProcessed <;>
      simp [processItemResultOutput, hsd, hip]

/-- Witness for C9: with the flag set mid-loop, the concrete ok handler
is a strict no-op, and a concrete item result keeps the flag set. -/
theorem item_loop_suppresses_witness :
    runnerOnOk extDefault stateItemLoop resWeb = (stateItemLoop, [])
    ∧ ((processItemResultOutput extDefault stateShown resWeb "ok" "x" "c").1).itemProcessed
        = true :=
  ⟨(item_loop_suppresses_host_results extDefault stateItemLoop resWeb false cexTask
      Option.none false rfl).1,
   (item_loop_suppresses_host_results extDefault stateItemLoop resWeb false cexTask
      Option.none false rfl).2.2.2 stateShown resWeb "ok" "x" "c" rfl⟩

/-- C10: `_get_host_string` renders the empty string for a result whose
originating host is exactly `localhost` — so the head line built by
`_process_result_output` starts directly with the upper-cased status —
while for any other host it renders the (prefixed) host name, extended
with an arrow and the delegated host name exactly when non-empty
delegated-host variables are present. -/
theorem localhost_host_elided (ext : Externals) (s : RState) (r : TaskResult)
    (pfx st sym col : String) :
    (r.hostName = "localhost" → getHostString s r pfx = "")
    ∧ (r.hostName = "localhost" → s.shouldDisplay = true → s.itemProcessed = false →
        processResultOutput ext s r st sym col
          = st.toUpper ++ ((if sym ≠ "" then "\r " ++ sym ++ " \n" else "")
              ++ sessionsText ext s r st col))
    ∧ (r.hostName ≠ "localhost" →
        (s.delegatedVars = Option.none ∨ s.delegatedVars = some []) →
        getHostString s r pfx = pfx ++ r.hostName)
    ∧ (∀ dv hostVal, r.hostName ≠ "localhost" → s.delegatedVars = some dv → dv ≠ [] →
        dv.lookup "ansible_host" = some hostVal →
        getHostString s r pfx
          = pfx ++ r.hostName ++ " " ++ symbolStr "arrow_right" ++ " " ++ pfx
            ++ hostVal.toStr) := by
  refine ⟨?_, ?_, ?_, ?_⟩
  · intro h
    simp [getHostString, h]
  · intro h hsd hip
    simp only [processResultOutput, hsd, hip, Bool.not_true, Bool.not_false,
      Bool.false_eq_true, if_false, if_true, resultHeadLine]
    rw [(by simp [getHostString, h] : getHostString s r "" = "")]
    rw [strEmptyAppend, strAppendAssoc]
  · intro h hdel
    rcases hdel with hdel | hdel <;> simp [getHostString, h, hdel]
  · intro dv hostVal h hdel hne hlook
    simp [getHostString, h, hdel, hne, hlook]

/-- Witness for C10 at concrete states and results: the localhost host
portion is empty and the head line starts with the status, a plain host
renders prefixed, and a delegated result appends the arrow and the
delegated host. -/
theorem localhost_host_elided_witness :
    getHostString stateShown resLocal "" = ""
    ∧ processResultOutput extDefault stateShown resLocal "ok" (symbolStr "success") COLOR_OK
        = "ok".toUpper ++ ((if symbolStr "success" ≠ "" then
              "\r " ++ symbolStr "success" ++ " \n" else "")
            ++ sessionsText extDefault stateShown resLocal "ok" COLOR_OK)
    ∧ getHostString stateShown resWeb "@" = "@" ++ resWeb.hostName
    ∧ getHostString stateDelegated resWeb "@"
        = "@" ++ resWeb.hostName ++ " " ++ symbolStr "arrow_right" ++ " " ++ "@"
          ++ (PyVal.str "db1").toStr :=
  ⟨(localhost_host_elided extDefault stateShown resLocal "" "ok" (symbolStr "success")
      COLOR_OK).1 rfl,
   (localhost_host_elided extDefault stateShown resLocal "" "ok" (symbolStr "success")
      COLOR_OK).2.1 rfl rfl rfl,
   (localhost_host_elided extDefault stateShown resWeb "@" "" "" "").2.2.1
     (by decide) (Or.inl rfl),
   (localhost_host_elided extDefault stateDelegated resWeb "@" "" "" "").2.2.2
     [("ansible_host", PyVal.str "db1")] (PyVal.str "db1") (by decide) rfl (by decide) rfl⟩
